import Mathlib

/-!
# Verification of the thought-chain state machine and its persistence/caching layer

Shallow embedding of the consciousness-sim repository's core: the `ThoughtData`
session record and the body of `render_main_functionality` from
`streamlit_app.py`, the cached listing layer of `local_utils/ui_lib.py`, and the
serialized record format.  External collaborators (the reasoning engine, the
Streamlit cache decorator, the pydantic serializer and the DynamoDB-backed
`ThoughtMemory`) are modelled explicitly where their behaviour is needed.
-/

set_option maxHeartbeats 1000000

/-- Modelled from the spec: `StartNewThoughtResponse` (from `local_utils.brain`,
not under src/) — the kickoff/classification result, carrying the chosen thought
type and its rationale. -/
structure StartNewThoughtResponse where
  response_type : String
  rationale : String
deriving DecidableEq, Repr

/-- Modelled from the spec: `ReflectThoughtResponse` (from `local_utils.brain`,
not under src/) — one reflect/act step response, carrying the step's kind and
its text. -/
structure ReflectThoughtResponse where
  response_type : String
  text : String
deriving DecidableEq, Repr

/-- The session record `ThoughtData` of `streamlit_app.py` (its `session_id`
field comes from the base class `BaseSessionData`, modelled from the spec as the
record's stable identifier). -/
structure ThoughtData where
  session_id : String
  thought_model : String := ""
  trigger_new_thought : Bool := false
  new_thought : Option StartNewThoughtResponse := none
  this_thought_responses : List ReflectThoughtResponse := []
  current_thought_index : Int := 0
  thought_complete : Bool := false
  thought_had_error : Bool := false
  thought_status_msgs : List String := []
deriving DecidableEq, Repr

/-- `ThoughtData.add_reflect_thought_response`: append a step response
(`save_to_session_state` only updates the in-memory session copy). -/
def ThoughtData.add_reflect_thought_response (d : ThoughtData)
    (response : ReflectThoughtResponse) : ThoughtData :=
  { d with this_thought_responses := d.this_thought_responses ++ [response] }

/-- `ThoughtData.add_thought_status_msg`: append a status message
(`save_to_session_state` only updates the in-memory session copy). -/
def ThoughtData.add_thought_status_msg (d : ThoughtData) (msg : String) :
    ThoughtData :=
  { d with thought_status_msgs := d.thought_status_msgs ++ [msg] }

/-- `ThoughtData.get_thought_status` from `streamlit_app.py`. -/
def ThoughtData.get_thought_status (d : ThoughtData) : String :=
  if d.thought_had_error then "error"
  else if d.thought_complete then "complete"
  else "running"

/-- `trigger_chain_of_thought` from `streamlit_app.py`. -/
def trigger_chain_of_thought (session : ThoughtData) (model : String) :
    ThoughtData :=
  { session with trigger_new_thought := true, thought_model := model }

/-- The external reasoning engine (`Brain`, not under src/), as seen by one
render pass: `classify` is `get_new_thought_type`, `step` is
`run_reflect_thought` applied to the kickoff rationale and the ordered
history.  Either call may fail with an engine-specific error. -/
structure Engine where
  classify : Except String StartNewThoughtResponse
  step : String → List ReflectThoughtResponse → Except String ReflectThoughtResponse

/-- The observable outcome of one pass through `render_main_functionality`:
the in-memory session record, the durably persisted copy (`none` when no
`persist_session_state` call has written it yet), how many classify and step
calls were made, how many step calls returned successfully, and whether an
uncaught exception propagated out of the pass. -/
structure PassResult where
  data : ThoughtData
  store : Option ThoughtData
  classifyCalls : Nat
  stepCalls : Nat
  stepOk : Nat
  raised : Bool
deriving Repr

/-- The initial status messages of `render_main_functionality`: when
`thought_status_msgs` is empty, two messages are appended via
`add_thought_status_msg` (no durable persist here). -/
def initial_status_msgs (d : ThoughtData) : ThoughtData :=
  if d.thought_status_msgs = [] then
    (d.add_thought_status_msg ("Thought initiated " ++ d.session_id)).add_thought_status_msg
      ("Thought Model: " ++ d.thought_model)
  else d

/-- The kickoff block of `render_main_functionality`: when `new_thought` is not
set, `brain.get_new_thought_type()` is called; on success its result is stored,
a status message is appended and `persist_session_state` writes the record; an
engine failure propagates uncaught. When `new_thought` is already set the block
does nothing. -/
def classify_phase (eng : Engine) (d : ThoughtData) (store : Option ThoughtData) :
    PassResult :=
  match d.new_thought with
  | some _ => ⟨d, store, 0, 0, 0, false⟩
  | none =>
    match eng.classify with
    | Except.error _ => ⟨d, store, 1, 0, 0, true⟩
    | Except.ok k =>
      let d1 : ThoughtData := { d with new_thought := some k }
      let d2 := d1.add_thought_status_msg ("Thought Type: " ++ k.response_type)
      ⟨d2, some d2, 1, 0, 0, false⟩

/-- The continue block of `render_main_functionality`: when the button is
pressed, `brain.run_reflect_thought` is called with the kickoff rationale and
the prior responses; on success the response and a status message are appended
and `persist_session_state` writes the record; an engine failure propagates
uncaught before anything is appended.  (Reading `.rationale` of an unset
`new_thought` would itself raise.) -/
def continue_phase (eng : Engine) (pressed : Bool) (d : ThoughtData)
    (store : Option ThoughtData) : PassResult :=
  if pressed then
    match d.new_thought with
    | none => ⟨d, store, 0, 0, 0, true⟩
    | some k =>
      match eng.step k.rationale d.this_thought_responses with
      | Except.error _ => ⟨d, store, 0, 1, 0, true⟩
      | Except.ok r =>
        let d1 := d.add_reflect_thought_response r
        let d2 := d1.add_thought_status_msg ("Action: " ++ r.response_type)
        ⟨d2, some d2, 0, 1, 1, false⟩
  else ⟨d, store, 0, 0, 0, false⟩

/-- One pass through `render_main_functionality` of `streamlit_app.py`,
restricted to its state-changing behaviour: when `trigger_new_thought` is
false the pass stops without mutation; otherwise the initial status messages,
the kickoff block and the continue block run in order, and an uncaught engine
failure aborts the rest of the pass (the in-memory mutations made so far are
kept in session state; the durable store keeps its last written value). -/
def render_main_functionality (eng : Engine) (pressed : Bool) (d : ThoughtData)
    (store : Option ThoughtData) : PassResult :=
  if d.trigger_new_thought = false then ⟨d, store, 0, 0, 0, false⟩
  else
    let r1 := classify_phase eng (initial_status_msgs d) store
    if r1.raised then r1
    else
      let r2 := continue_phase eng pressed r1.data r1.store
      ⟨r2.data, r2.store, r1.classifyCalls, r2.stepCalls, r2.stepOk, r2.raised⟩

/-- Accumulated outcome of a sequence of render passes. -/
structure RunResult where
  data : ThoughtData
  store : Option ThoughtData
  classifyCalls : Nat
  stepCalls : Nat
  stepOk : Nat
deriving Repr

/-- Run a sequence of render passes (each with its own engine behaviour and
continue-button state), threading the session record and the durable store and
accumulating the call counts. -/
def run_passes : List (Engine × Bool) → ThoughtData → Option ThoughtData → RunResult
  | [], d, s => ⟨d, s, 0, 0, 0⟩
  | (e, p) :: rest, d, s =>
    let r := render_main_functionality e p d s
    let rr := run_passes rest r.data r.store
    ⟨rr.data, rr.store, r.classifyCalls + rr.classifyCalls,
      r.stepCalls + rr.stepCalls, r.stepOk + rr.stepOk⟩

/-! ### Basic facts about the pass phases -/

theorem initial_status_msgs_new_thought (d : ThoughtData) :
    (initial_status_msgs d).new_thought = d.new_thought := by
  unfold initial_status_msgs
  split <;> simp [ThoughtData.add_thought_status_msg]

theorem initial_status_msgs_responses (d : ThoughtData) :
    (initial_status_msgs d).this_thought_responses = d.this_thought_responses := by
  unfold initial_status_msgs
  split <;> simp [ThoughtData.add_thought_status_msg]

theorem initial_status_msgs_trigger (d : ThoughtData) :
    (initial_status_msgs d).trigger_new_thought = d.trigger_new_thought := by
  unfold initial_status_msgs
  split <;> simp [ThoughtData.add_thought_status_msg]

theorem initial_status_msgs_complete (d : ThoughtData) :
    (initial_status_msgs d).thought_complete = d.thought_complete := by
  unfold initial_status_msgs
  split <;> simp [ThoughtData.add_thought_status_msg]

theorem initial_status_msgs_had_error (d : ThoughtData) :
    (initial_status_msgs d).thought_had_error = d.thought_had_error := by
  unfold initial_status_msgs
  split <;> simp [ThoughtData.add_thought_status_msg]

theorem classify_phase_some (e : Engine) (d : ThoughtData) (s : Option ThoughtData)
    (k : StartNewThoughtResponse) (h : d.new_thought = some k) :
    classify_phase e d s = ⟨d, s, 0, 0, 0, false⟩ := by
  unfold classify_phase
  rw [h]

theorem classify_phase_none_error (e : Engine) (d : ThoughtData) (s : Option ThoughtData)
    (msg : String) (h : d.new_thought = none) (hc : e.classify = Except.error msg) :
    classify_phase e d s = ⟨d, s, 1, 0, 0, true⟩ := by
  unfold classify_phase
  rw [h, hc]

theorem classify_phase_none_ok (e : Engine) (d : ThoughtData) (s : Option ThoughtData)
    (k : StartNewThoughtResponse) (h : d.new_thought = none)
    (hc : e.classify = Except.ok k) :
    classify_phase e d s =
      ⟨({ d with new_thought := some k }).add_thought_status_msg
          ("Thought Type: " ++ k.response_type),
        some (({ d with new_thought := some k }).add_thought_status_msg
          ("Thought Type: " ++ k.response_type)), 1, 0, 0, false⟩ := by
  unfold classify_phase
  rw [h, hc]

theorem continue_phase_not_pressed (e : Engine) (d : ThoughtData) (s : Option ThoughtData) :
    continue_phase e false d s = ⟨d, s, 0, 0, 0, false⟩ := by
  unfold continue_phase
  simp

theorem continue_phase_pressed_none (e : Engine) (d : ThoughtData) (s : Option ThoughtData)
    (h : d.new_thought = none) :
    continue_phase e true d s = ⟨d, s, 0, 0, 0, true⟩ := by
  unfold continue_phase
  rw [h]
  simp

theorem continue_phase_pressed_error (e : Engine) (d : ThoughtData) (s : Option ThoughtData)
    (k : StartNewThoughtResponse) (msg : String) (h : d.new_thought = some k)
    (hs : e.step k.rationale d.this_thought_responses = Except.error msg) :
    continue_phase e true d s = ⟨d, s, 0, 1, 0, true⟩ := by
  unfold continue_phase
  rw [h]
  simp [hs]

theorem continue_phase_pressed_ok (e : Engine) (d : ThoughtData) (s : Option ThoughtData)
    (k : StartNewThoughtResponse) (r : ReflectThoughtResponse) (h : d.new_thought = some k)
    (hs : e.step k.rationale d.this_thought_responses = Except.ok r) :
    continue_phase e true d s =
      ⟨(d.add_reflect_thought_response r).add_thought_status_msg
          ("Action: " ++ r.response_type),
        some ((d.add_reflect_thought_response r).add_thought_status_msg
          ("Action: " ++ r.response_type)), 0, 1, 1, false⟩ := by
  unfold continue_phase
  rw [h]
  simp [hs]

/-! ### Characterization of one render pass -/

theorem render_main_no_trigger (e : Engine) (p : Bool) (d : ThoughtData)
    (s : Option ThoughtData) (ht : d.trigger_new_thought = false) :
    render_main_functionality e p d s = ⟨d, s, 0, 0, 0, false⟩ := by
  unfold render_main_functionality
  rw [ht]
  simp

theorem render_main_some (e : Engine) (p : Bool) (d : ThoughtData) (s : Option ThoughtData)
    (k : StartNewThoughtResponse) (ht : d.trigger_new_thought = true)
    (hk : d.new_thought = some k) :
    render_main_functionality e p d s =
      ⟨(continue_phase e p (initial_status_msgs d) s).data,
        (continue_phase e p (initial_status_msgs d) s).store, 0,
        (continue_phase e p (initial_status_msgs d) s).stepCalls,
        (continue_phase e p (initial_status_msgs d) s).stepOk,
        (continue_phase e p (initial_status_msgs d) s).raised⟩ := by
  have hik : (initial_status_msgs d).new_thought = some k := by
    rw [initial_status_msgs_new_thought, hk]
  unfold render_main_functionality
  rw [ht]
  simp [classify_phase_some e (initial_status_msgs d) s k hik]

theorem render_main_none_error (e : Engine) (p : Bool) (d : ThoughtData)
    (s : Option ThoughtData) (msg : String) (ht : d.trigger_new_thought = true)
    (hk : d.new_thought = none) (hc : e.classify = Except.error msg) :
    render_main_functionality e p d s = ⟨initial_status_msgs d, s, 1, 0, 0, true⟩ := by
  have hik : (initial_status_msgs d).new_thought = none := by
    rw [initial_status_msgs_new_thought, hk]
  unfold render_main_functionality
  rw [ht]
  simp [classify_phase_none_error e (initial_status_msgs d) s msg hik hc]

/-- The session record right after a successful kickoff inside one pass: the
initial status messages, the stored classify result, and the thought-type
status message. -/
def classified (d : ThoughtData) (k : StartNewThoughtResponse) : ThoughtData :=
  ({ initial_status_msgs d with new_thought := some k }).add_thought_status_msg
    ("Thought Type: " ++ k.response_type)

theorem classified_new_thought (d : ThoughtData) (k : StartNewThoughtResponse) :
    (classified d k).new_thought = some k := rfl

theorem classified_responses (d : ThoughtData) (k : StartNewThoughtResponse) :
    (classified d k).this_thought_responses = d.this_thought_responses := by
  show (initial_status_msgs d).this_thought_responses = d.this_thought_responses
  exact initial_status_msgs_responses d

theorem classified_trigger (d : ThoughtData) (k : StartNewThoughtResponse) :
    (classified d k).trigger_new_thought = d.trigger_new_thought := by
  show (initial_status_msgs d).trigger_new_thought = d.trigger_new_thought
  exact initial_status_msgs_trigger d

theorem classified_complete (d : ThoughtData) (k : StartNewThoughtResponse) :
    (classified d k).thought_complete = d.thought_complete := by
  show (initial_status_msgs d).thought_complete = d.thought_complete
  exact initial_status_msgs_complete d

theorem render_main_none_ok (e : Engine) (p : Bool) (d : ThoughtData)
    (s : Option ThoughtData) (k : StartNewThoughtResponse) (ht : d.trigger_new_thought = true)
    (hk : d.new_thought = none) (hc : e.classify = Except.ok k) :
    render_main_functionality e p d s =
      ⟨(continue_phase e p (classified d k) (some (classified d k))).data,
        (continue_phase e p (classified d k) (some (classified d k))).store, 1,
        (continue_phase e p (classified d k) (some (classified d k))).stepCalls,
        (continue_phase e p (classified d k) (some (classified d k))).stepOk,
        (continue_phase e p (classified d k) (some (classified d k))).raised⟩ := by
  have hik : (initial_status_msgs d).new_thought = none := by
    rw [initial_status_msgs_new_thought, hk]
  unfold render_main_functionality
  rw [ht]
  simp [classified, classify_phase_none_ok e (initial_status_msgs d) s k hik hc]

/-! ### Per-pass invariants -/

theorem render_main_pass_some (e : Engine) (p : Bool) (d : ThoughtData)
    (s : Option ThoughtData) (k : StartNewThoughtResponse) (hk : d.new_thought = some k) :
    (render_main_functionality e p d s).classifyCalls = 0 ∧
    (render_main_functionality e p d s).data.new_thought = some k := by
  cases ht : d.trigger_new_thought with
  | false => rw [render_main_no_trigger e p d s ht]; exact ⟨rfl, hk⟩
  | true =>
    rw [render_main_some e p d s k ht hk]
    refine ⟨rfl, ?_⟩
    have hik : (initial_status_msgs d).new_thought = some k := by
      rw [initial_status_msgs_new_thought, hk]
    cases p with
    | false => rw [continue_phase_not_pressed]; exact hik
    | true =>
      cases hs : e.step k.rationale (initial_status_msgs d).this_thought_responses with
      | error msg =>
        rw [continue_phase_pressed_error e (initial_status_msgs d) s k msg hik hs]
        exact hik
      | ok r =>
        rw [continue_phase_pressed_ok e (initial_status_msgs d) s k r hik hs]
        exact hik

theorem continue_phase_responses_len (e : Engine) (p : Bool) (d : ThoughtData)
    (s : Option ThoughtData) :
    (continue_phase e p d s).data.this_thought_responses.length =
      d.this_thought_responses.length + (continue_phase e p d s).stepOk ∧
    ((continue_phase e p d s).stepOk = 0 →
      (continue_phase e p d s).data.this_thought_responses = d.this_thought_responses) := by
  cases p with
  | false => rw [continue_phase_not_pressed]; exact ⟨rfl, fun _ => rfl⟩
  | true =>
    cases h : d.new_thought with
    | none => rw [continue_phase_pressed_none e d s h]; exact ⟨rfl, fun _ => rfl⟩
    | some k =>
      cases hs : e.step k.rationale d.this_thought_responses with
      | error msg =>
        rw [continue_phase_pressed_error e d s k msg h hs]
        exact ⟨rfl, fun _ => rfl⟩
      | ok r =>
        rw [continue_phase_pressed_ok e d s k r h hs]
        constructor
        · show (d.this_thought_responses ++ [r]).length = d.this_thought_responses.length + 1
          simp
        · intro h0
          exact absurd h0 one_ne_zero

theorem render_main_responses_len (e : Engine) (p : Bool) (d : ThoughtData)
    (s : Option ThoughtData) :
    (render_main_functionality e p d s).data.this_thought_responses.length =
      d.this_thought_responses.length + (render_main_functionality e p d s).stepOk ∧
    ((render_main_functionality e p d s).stepOk = 0 →
      (render_main_functionality e p d s).data.this_thought_responses =
        d.this_thought_responses) := by
  cases ht : d.trigger_new_thought with
  | false =>
    rw [render_main_no_trigger e p d s ht]
    exact ⟨rfl, fun _ => rfl⟩
  | true =>
    cases hk : d.new_thought with
    | some k =>
      rw [render_main_some e p d s k ht hk]
      have h := continue_phase_responses_len e p (initial_status_msgs d) s
      rw [initial_status_msgs_responses] at h
      exact h
    | none =>
      cases hc : e.classify with
      | error msg =>
        rw [render_main_none_error e p d s msg ht hk hc]
        constructor
        · simp [initial_status_msgs_responses]
        · intro _
          exact initial_status_msgs_responses d
      | ok k =>
        rw [render_main_none_ok e p d s k ht hk hc]
        have h := continue_phase_responses_len e p (classified d k) (some (classified d k))
        rw [classified_responses] at h
        exact h

theorem run_passes_some (script : List (Engine × Bool)) (d : ThoughtData)
    (s : Option ThoughtData) (k : StartNewThoughtResponse) (hk : d.new_thought = some k) :
    (run_passes script d s).classifyCalls = 0 ∧
    (run_passes script d s).data.new_thought = some k := by
  induction script generalizing d s with
  | nil => exact ⟨rfl, hk⟩
  | cons ep rest ih =>
    obtain ⟨e, p⟩ := ep
    have h1 := render_main_pass_some e p d s k hk
    have h2 := ih (render_main_functionality e p d s).data
      (render_main_functionality e p d s).store h1.2
    simp only [run_passes]
    exact ⟨by rw [h1.1, h2.1], h2.2⟩

theorem run_passes_responses_len (script : List (Engine × Bool)) (d : ThoughtData)
    (s : Option ThoughtData) :
    (run_passes script d s).data.this_thought_responses.length =
      d.this_thought_responses.length + (run_passes script d s).stepOk := by
  induction script generalizing d s with
  | nil => rfl
  | cons ep rest ih =>
    obtain ⟨e, p⟩ := ep
    have h1 := (render_main_responses_len e p d s).1
    have h2 := ih (render_main_functionality e p d s).data
      (render_main_functionality e p d s).store
    simp only [run_passes]
    omega

/-! ### Claims about the state machine -/

/-- C10: `get_thought_status` is total and returns exactly one of "error",
"complete", "running"; "error" is returned whenever `thought_had_error` is set
(taking precedence over `thought_complete`), "complete" when only
`thought_complete` is set, and "running" when both flags are clear. -/
theorem get_thought_status_spec (d : ThoughtData) :
    (d.get_thought_status = "error" ∨ d.get_thought_status = "complete" ∨
      d.get_thought_status = "running") ∧
    (d.thought_had_error = true → d.get_thought_status = "error") ∧
    (d.thought_had_error = false → d.thought_complete = true →
      d.get_thought_status = "complete") ∧
    (d.thought_had_error = false → d.thought_complete = false →
      d.get_thought_status = "running") := by
  unfold ThoughtData.get_thought_status
  cases h1 : d.thought_had_error <;> cases h2 : d.thought_complete <;> simp [h1, h2]

/-- Witness for C10 at a record with both flags set: "error" wins. -/
theorem get_thought_status_spec_witness :
    ({ session_id := "w10", thought_complete := true, thought_had_error := true } :
      ThoughtData).get_thought_status = "error" :=
  (get_thought_status_spec
    { session_id := "w10", thought_complete := true, thought_had_error := true }).2.1 rfl

/-- C2: once a record's kickoff (`new_thought`) is set, no sequence of further
render passes ever invokes the classify operation again, the stored kickoff is
unchanged, and a resumed session proceeds directly to stepping: a pressed
continue whose engine step succeeds appends that step to the history. -/
theorem resumed_session_never_reclassifies (script : List (Engine × Bool))
    (e : Engine) (d : ThoughtData) (s : Option ThoughtData)
    (k : StartNewThoughtResponse) (r : ReflectThoughtResponse)
    (hk : d.new_thought = some k) :
    (run_passes script d s).classifyCalls = 0 ∧
    (run_passes script d s).data.new_thought = some k ∧
    (d.trigger_new_thought = true →
      e.step k.rationale d.this_thought_responses = Except.ok r →
      (render_main_functionality e true d s).data.this_thought_responses =
        d.this_thought_responses ++ [r]) := by
  refine ⟨(run_passes_some script d s k hk).1, (run_passes_some script d s k hk).2, ?_⟩
  intro ht hs
  rw [render_main_some e true d s k ht hk]
  have hik : (initial_status_msgs d).new_thought = some k := by
    rw [initial_status_msgs_new_thought, hk]
  have hs2 : e.step k.rationale (initial_status_msgs d).this_thought_responses =
      Except.ok r := by rw [initial_status_msgs_responses]; exact hs
  rw [continue_phase_pressed_ok e (initial_status_msgs d) s k r hik hs2]
  show ((initial_status_msgs d).this_thought_responses ++ [r]) =
    d.this_thought_responses ++ [r]
  rw [initial_status_msgs_responses]

/-- Witness for C2: a resumed record with kickoff "R1" goes through two passes
(one of them with a failing classify operation waiting, which is never called)
with zero classify calls, and a pressed continue appends the step. -/
theorem resumed_session_never_reclassifies_witness :
    (run_passes
        [(⟨Except.error "would re-classify", fun _ _ => Except.ok ⟨"act", "t"⟩⟩, true),
         (⟨Except.error "would re-classify", fun _ _ => Except.ok ⟨"act", "u"⟩⟩, true)]
        { session_id := "w2", trigger_new_thought := true,
          new_thought := some ⟨"REFLECT", "R1"⟩, thought_status_msgs := ["m"] }
        none).classifyCalls = 0 ∧
    (run_passes
        [(⟨Except.error "would re-classify", fun _ _ => Except.ok ⟨"act", "t"⟩⟩, true),
         (⟨Except.error "would re-classify", fun _ _ => Except.ok ⟨"act", "u"⟩⟩, true)]
        { session_id := "w2", trigger_new_thought := true,
          new_thought := some ⟨"REFLECT", "R1"⟩, thought_status_msgs := ["m"] }
        none).data.new_thought = some ⟨"REFLECT", "R1"⟩ ∧
    (({ session_id := "w2", trigger_new_thought := true,
        new_thought := some ⟨"REFLECT", "R1"⟩, thought_status_msgs := ["m"] } :
          ThoughtData).trigger_new_thought = true →
      Engine.step ⟨Except.error "would re-classify", fun _ _ => Except.ok ⟨"act", "t"⟩⟩
          (StartNewThoughtResponse.rationale ⟨"REFLECT", "R1"⟩)
          ({ session_id := "w2", trigger_new_thought := true,
             new_thought := some ⟨"REFLECT", "R1"⟩, thought_status_msgs := ["m"] } :
            ThoughtData).this_thought_responses = Except.ok ⟨"act", "t"⟩ →
      (render_main_functionality
          ⟨Except.error "would re-classify", fun _ _ => Except.ok ⟨"act", "t"⟩⟩ true
          { session_id := "w2", trigger_new_thought := true,
            new_thought := some ⟨"REFLECT", "R1"⟩, thought_status_msgs := ["m"] }
          none).data.this_thought_responses =
        ({ session_id := "w2", trigger_new_thought := true,
           new_thought := some ⟨"REFLECT", "R1"⟩, thought_status_msgs := ["m"] } :
          ThoughtData).this_thought_responses ++ [⟨"act", "t"⟩]) :=
  resumed_session_never_reclassifies
    [(⟨Except.error "would re-classify", fun _ _ => Except.ok ⟨"act", "t"⟩⟩, true),
     (⟨Except.error "would re-classify", fun _ _ => Except.ok ⟨"act", "u"⟩⟩, true)]
    ⟨Except.error "would re-classify", fun _ _ => Except.ok ⟨"act", "t"⟩⟩
    { session_id := "w2", trigger_new_thought := true,
      new_thought := some ⟨"REFLECT", "R1"⟩, thought_status_msgs := ["m"] }
    none ⟨"REFLECT", "R1"⟩ ⟨"act", "t"⟩ rfl

/-- C6: over every sequence of render passes, the length of the step history
equals its initial length plus the number of engine step calls that returned
successfully, and a pass whose step call did not succeed appends nothing. -/
theorem steps_equal_successful_engine_calls (script : List (Engine × Bool))
    (d : ThoughtData) (s : Option ThoughtData) :
    (run_passes script d s).data.this_thought_responses.length =
      d.this_thought_responses.length + (run_passes script d s).stepOk ∧
    (∀ e p, (render_main_functionality e p d s).stepOk = 0 →
      (render_main_functionality e p d s).data.this_thought_responses =
        d.this_thought_responses) := by
  exact ⟨run_passes_responses_len script d s,
    fun e p h0 => (render_main_responses_len e p d s).2 h0⟩

/-- C1 is false as stated: on a record whose `thought_complete` flag is true, a
"continue" action is not a no-op — the step returned by the engine is still
appended to the step history (the code never consults `thought_complete`). -/
theorem completed_continue_not_noop :
    ({ session_id := "c1", thought_model := "gpt-4", trigger_new_thought := true,
       new_thought := some ⟨"REFLECT", "R1"⟩, thought_complete := true,
       thought_status_msgs := ["m"] } : ThoughtData).thought_complete = true ∧
    (render_main_functionality
        ⟨Except.ok ⟨"REFLECT", "R1"⟩, fun _ _ => Except.ok ⟨"act", "t"⟩⟩ true
        { session_id := "c1", thought_model := "gpt-4", trigger_new_thought := true,
          new_thought := some ⟨"REFLECT", "R1"⟩, thought_complete := true,
          thought_status_msgs := ["m"] }
        none).data.this_thought_responses ≠
      ({ session_id := "c1", thought_model := "gpt-4", trigger_new_thought := true,
         new_thought := some ⟨"REFLECT", "R1"⟩, thought_complete := true,
         thought_status_msgs := ["m"] } : ThoughtData).this_thought_responses := by
  decide

/-- C1 (amended): the `thought_complete` flag does not gate mutation — a
"continue" action whose engine step succeeds appends exactly that step to the
history whatever the flag's value, and leaves the flag itself unchanged. -/
theorem continue_ignores_completed_flag (e : Engine) (d : ThoughtData)
    (s : Option ThoughtData) (k : StartNewThoughtResponse) (r : ReflectThoughtResponse)
    (ht : d.trigger_new_thought = true) (hk : d.new_thought = some k)
    (hs : e.step k.rationale d.this_thought_responses = Except.ok r) :
    (render_main_functionality e true d s).data.this_thought_responses =
      d.this_thought_responses ++ [r] ∧
    (render_main_functionality e true d s).data.thought_complete =
      d.thought_complete := by
  rw [render_main_some e true d s k ht hk]
  have hik : (initial_status_msgs d).new_thought = some k := by
    rw [initial_status_msgs_new_thought, hk]
  have hs2 : e.step k.rationale (initial_status_msgs d).this_thought_responses =
      Except.ok r := by rw [initial_status_msgs_responses]; exact hs
  rw [continue_phase_pressed_ok e (initial_status_msgs d) s k r hik hs2]
  constructor
  · show ((initial_status_msgs d).this_thought_responses ++ [r]) =
      d.this_thought_responses ++ [r]
    rw [initial_status_msgs_responses]
  · show (initial_status_msgs d).thought_complete = d.thought_complete
    exact initial_status_msgs_complete d

/-- Witness for the amended C1, at a record whose `thought_complete` is true. -/
theorem continue_ignores_completed_flag_witness :
    (render_main_functionality
        ⟨Except.ok ⟨"REFLECT", "R1"⟩, fun _ _ => Except.ok ⟨"act", "t"⟩⟩ true
        { session_id := "c1w", thought_model := "gpt-4", trigger_new_thought := true,
          new_thought := some ⟨"REFLECT", "R1"⟩, thought_complete := true,
          thought_status_msgs := ["m"] }
        none).data.this_thought_responses =
      ({ session_id := "c1w", thought_model := "gpt-4", trigger_new_thought := true,
         new_thought := some ⟨"REFLECT", "R1"⟩, thought_complete := true,
         thought_status_msgs := ["m"] } : ThoughtData).this_thought_responses ++
        [⟨"act", "t"⟩] ∧
    (render_main_functionality
        ⟨Except.ok ⟨"REFLECT", "R1"⟩, fun _ _ => Except.ok ⟨"act", "t"⟩⟩ true
        { session_id := "c1w", thought_model := "gpt-4", trigger_new_thought := true,
          new_thought := some ⟨"REFLECT", "R1"⟩, thought_complete := true,
          thought_status_msgs := ["m"] }
        none).data.thought_complete =
      ({ session_id := "c1w", thought_model := "gpt-4", trigger_new_thought := true,
         new_thought := some ⟨"REFLECT", "R1"⟩, thought_complete := true,
         thought_status_msgs := ["m"] } : ThoughtData).thought_complete :=
  continue_ignores_completed_flag
    ⟨Except.ok ⟨"REFLECT", "R1"⟩, fun _ _ => Except.ok ⟨"act", "t"⟩⟩
    { session_id := "c1w", thought_model := "gpt-4", trigger_new_thought := true,
      new_thought := some ⟨"REFLECT", "R1"⟩, thought_complete := true,
      thought_status_msgs := ["m"] }
    none ⟨"REFLECT", "R1"⟩ ⟨"act", "t"⟩ rfl rfl rfl

/-- C4 is false as stated: on a freshly triggered record the two initial
status messages are appended through `add_thought_status_msg` (session state
only); when the classify call then fails, control returns with the in-memory
record mutated but nothing durably persisted, so the persisted record does not
equal the in-memory record between actions. -/
theorem status_msg_mutation_not_persisted :
    (render_main_functionality
        ⟨Except.error "engine failure", fun _ _ => Except.error "unused"⟩ false
        { session_id := "c4", thought_model := "gpt-4", trigger_new_thought := true }
        none).data ≠
      ({ session_id := "c4", thought_model := "gpt-4", trigger_new_thought := true } :
        ThoughtData) ∧
    (render_main_functionality
        ⟨Except.error "engine failure", fun _ _ => Except.error "unused"⟩ false
        { session_id := "c4", thought_model := "gpt-4", trigger_new_thought := true }
        none).data.thought_status_msgs ≠
      ({ session_id := "c4", thought_model := "gpt-4", trigger_new_thought := true } :
        ThoughtData).thought_status_msgs ∧
    (render_main_functionality
        ⟨Except.error "engine failure", fun _ _ => Except.error "unused"⟩ false
        { session_id := "c4", thought_model := "gpt-4", trigger_new_thought := true }
        none).store ≠
      some (render_main_functionality
        ⟨Except.error "engine failure", fun _ _ => Except.error "unused"⟩ false
        { session_id := "c4", thought_model := "gpt-4", trigger_new_thought := true }
        none).data := by
  decide

/-- C4 (amended): only the kickoff and step mutations are followed by a
synchronous durable persist — a pass that performs an engine call and does not
raise ends with the durable store equal to the final in-memory record, while
status-message-only mutations are saved to session state but not durably
persisted. -/
theorem mutating_engine_pass_persists (e : Engine) (p : Bool) (d : ThoughtData)
    (s : Option ThoughtData)
    (hr : (render_main_functionality e p d s).raised = false)
    (hc : 0 < (render_main_functionality e p d s).classifyCalls +
      (render_main_functionality e p d s).stepCalls) :
    (render_main_functionality e p d s).store =
      some (render_main_functionality e p d s).data := by
  cases ht : d.trigger_new_thought with
  | false =>
    rw [render_main_no_trigger e p d s ht] at hc
    exact absurd hc (by simp)
  | true =>
    cases hk : d.new_thought with
    | some k =>
      have hik : (initial_status_msgs d).new_thought = some k := by
        rw [initial_status_msgs_new_thought, hk]
      rw [render_main_some e p d s k ht hk] at hr hc ⊢
      cases p with
      | false =>
        rw [continue_phase_not_pressed] at hc
        exact absurd hc (by simp)
      | true =>
        cases hs : e.step k.rationale (initial_status_msgs d).this_thought_responses with
        | error msg =>
          rw [continue_phase_pressed_error e (initial_status_msgs d) s k msg hik hs] at hr
          exact absurd hr (by simp)
        | ok r =>
          rw [continue_phase_pressed_ok e (initial_status_msgs d) s k r hik hs]
    | none =>
      cases hcl : e.classify with
      | error msg =>
        rw [render_main_none_error e p d s msg ht hk hcl] at hr
        exact absurd hr (by simp)
      | ok k =>
        rw [render_main_none_ok e p d s k ht hk hcl] at hr ⊢
        cases p with
        | false => rw [continue_phase_not_pressed]
        | true =>
          cases hs : e.step k.rationale
              (classified d k).this_thought_responses with
          | error msg =>
            rw [continue_phase_pressed_error e (classified d k) (some (classified d k))
              k msg (classified_new_thought d k) hs] at hr
            exact absurd hr (by simp)
          | ok r =>
            rw [continue_phase_pressed_ok e (classified d k) (some (classified d k))
              k r (classified_new_thought d k) hs]

/-- Witness for the amended C4: a pass that sets the kickoff and appends a step
ends with the durable store holding exactly the final in-memory record. -/
theorem mutating_engine_pass_persists_witness :
    (render_main_functionality
        ⟨Except.ok ⟨"REFLECT", "R1"⟩, fun _ _ => Except.ok ⟨"act", "t"⟩⟩ true
        { session_id := "c4w", thought_model := "gpt-4", trigger_new_thought := true }
        none).store =
      some (render_main_functionality
        ⟨Except.ok ⟨"REFLECT", "R1"⟩, fun _ _ => Except.ok ⟨"act", "t"⟩⟩ true
        { session_id := "c4w", thought_model := "gpt-4", trigger_new_thought := true }
        none).data :=
  mutating_engine_pass_persists
    ⟨Except.ok ⟨"REFLECT", "R1"⟩, fun _ _ => Except.ok ⟨"act", "t"⟩⟩ true
    { session_id := "c4w", thought_model := "gpt-4", trigger_new_thought := true }
    none (by decide) (by decide)

/-- C5 is false as stated: when the classify call fails, the exception
propagates out of the pass, `thought_had_error` stays false (the chain never
reports "error"), and the record is not persisted at all — so it cannot be
listed from the store. -/
theorem classify_failure_not_errored :
    (render_main_functionality
        ⟨Except.error "engine failure", fun _ _ => Except.error "unused"⟩ false
        { session_id := "c5", thought_model := "gpt-4", trigger_new_thought := true }
        none).raised = true ∧
    (render_main_functionality
        ⟨Except.error "engine failure", fun _ _ => Except.error "unused"⟩ false
        { session_id := "c5", thought_model := "gpt-4", trigger_new_thought := true }
        none).data.thought_had_error = false ∧
    (render_main_functionality
        ⟨Except.error "engine failure", fun _ _ => Except.error "unused"⟩ false
        { session_id := "c5", thought_model := "gpt-4", trigger_new_thought := true }
        none).data.get_thought_status ≠ "error" ∧
    (render_main_functionality
        ⟨Except.error "engine failure", fun _ _ => Except.error "unused"⟩ false
        { session_id := "c5", thought_model := "gpt-4", trigger_new_thought := true }
        none).store = none := by
  decide

/-- C5 (amended): a failing classify call makes the pass raise; the error flag,
the step history and the durable store are all left exactly as they were (the
only in-memory change is the appended status messages). -/
theorem classify_failure_propagates (e : Engine) (p : Bool) (d : ThoughtData)
    (s : Option ThoughtData) (msg : String) (ht : d.trigger_new_thought = true)
    (hk : d.new_thought = none) (hc : e.classify = Except.error msg) :
    (render_main_functionality e p d s).raised = true ∧
    (render_main_functionality e p d s).data.thought_had_error =
      d.thought_had_error ∧
    (render_main_functionality e p d s).data.this_thought_responses =
      d.this_thought_responses ∧
    (render_main_functionality e p d s).store = s := by
  rw [render_main_none_error e p d s msg ht hk hc]
  exact ⟨rfl, initial_status_msgs_had_error d, initial_status_msgs_responses d, rfl⟩

/-- Witness for the amended C5 at a fresh triggered record and a failing
engine. -/
theorem classify_failure_propagates_witness :
    (render_main_functionality
        ⟨Except.error "engine down", fun _ _ => Except.ok ⟨"act", "t"⟩⟩ true
        { session_id := "c5w", thought_model := "gpt-4", trigger_new_thought := true }
        none).raised = true ∧
    (render_main_functionality
        ⟨Except.error "engine down", fun _ _ => Except.ok ⟨"act", "t"⟩⟩ true
        { session_id := "c5w", thought_model := "gpt-4", trigger_new_thought := true }
        none).data.thought_had_error =
      ({ session_id := "c5w", thought_model := "gpt-4", trigger_new_thought := true } :
        ThoughtData).thought_had_error ∧
    (render_main_functionality
        ⟨Except.error "engine down", fun _ _ => Except.ok ⟨"act", "t"⟩⟩ true
        { session_id := "c5w", thought_model := "gpt-4", trigger_new_thought := true }
        none).data.this_thought_responses =
      ({ session_id := "c5w", thought_model := "gpt-4", trigger_new_thought := true } :
        ThoughtData).this_thought_responses ∧
    (render_main_functionality
        ⟨Except.error "engine down", fun _ _ => Except.ok ⟨"act", "t"⟩⟩ true
        { session_id := "c5w", thought_model := "gpt-4", trigger_new_thought := true }
        none).store = none :=
  classify_failure_propagates
    ⟨Except.error "engine down", fun _ _ => Except.ok ⟨"act", "t"⟩⟩ true
    { session_id := "c5w", thought_model := "gpt-4", trigger_new_thought := true }
    none "engine down" rfl rfl rfl

/-! ### The serialized record format and the listing layer -/

/-- A JSON-like value: the serialization domain of the persisted record format
(one serialized record per thought id) and of the dump/validate pair of the
listing layer. -/
inductive Json where
  | null : Json
  | bool : Bool → Json
  | num : Int → Json
  | str : String → Json
  | arr : List Json → Json
  | obj : List (String × Json) → Json
deriving Repr

/-- Key lookup among the fields of a serialized object. -/
def lookupField : List (String × Json) → String → Option Json
  | [], _ => none
  | (k, v) :: rest, key => if k = key then some v else lookupField rest key

/-- The field of a serialized object, or `none` when absent or not an object. -/
def Json.field (j : Json) (key : String) : Option Json :=
  match j with
  | Json.obj fields => lookupField fields key
  | _ => none

def Json.getStr : Json → Option String
  | Json.str s => some s
  | _ => none

def Json.getBool : Json → Option Bool
  | Json.bool b => some b
  | _ => none

def Json.getNum : Json → Option Int
  | Json.num n => some n
  | _ => none

def Json.getArr : Json → Option (List Json)
  | Json.arr l => some l
  | _ => none

/-- Modelled from the spec: pydantic serialization of a kickoff result. -/
def StartNewThoughtResponse.toJson (k : StartNewThoughtResponse) : Json :=
  Json.obj [("response_type", Json.str k.response_type),
    ("rationale", Json.str k.rationale)]

/-- Modelled from the spec: pydantic serialization of a step response. -/
def ReflectThoughtResponse.toJson (r : ReflectThoughtResponse) : Json :=
  Json.obj [("response_type", Json.str r.response_type), ("text", Json.str r.text)]

/-- Modelled from the spec: pydantic `model_dump_json` of the session record —
the persisted record format written by `persist_session_state` (the base class
is not under src/): one object carrying every field, `steps` in insertion
order. -/
def ThoughtData.model_dump_json (d : ThoughtData) : Json :=
  Json.obj [
    ("session_id", Json.str d.session_id),
    ("thought_model", Json.str d.thought_model),
    ("trigger_new_thought", Json.bool d.trigger_new_thought),
    ("new_thought", match d.new_thought with
      | none => Json.null
      | some k => k.toJson),
    ("this_thought_responses",
      Json.arr (d.this_thought_responses.map ReflectThoughtResponse.toJson)),
    ("current_thought_index", Json.num d.current_thought_index),
    ("thought_complete", Json.bool d.thought_complete),
    ("thought_had_error", Json.bool d.thought_had_error),
    ("thought_status_msgs", Json.arr (d.thought_status_msgs.map Json.str))]

/-- Modelled from the spec: pydantic validation of a kickoff result. -/
def decodeStart (j : Json) : Option StartNewThoughtResponse :=
  ((j.field "response_type").bind Json.getStr).bind fun rt =>
  ((j.field "rationale").bind Json.getStr).bind fun ra =>
  some ⟨rt, ra⟩

/-- Modelled from the spec: pydantic validation of a step response. -/
def decodeReflect (j : Json) : Option ReflectThoughtResponse :=
  ((j.field "response_type").bind Json.getStr).bind fun rt =>
  ((j.field "text").bind Json.getStr).bind fun tx =>
  some ⟨rt, tx⟩

/-- Elementwise validation of a serialized list: any failing element fails the
whole list (pydantic list validation). -/
def mapOption (f : α → Option β) : List α → Option (List β)
  | [] => some []
  | x :: xs => (f x).bind fun y => (mapOption f xs).bind fun ys => some (y :: ys)

/-- Validation of the optional kickoff field: `null` decodes to `none`. -/
def decodeOptStart (j : Json) : Option (Option StartNewThoughtResponse) :=
  match j with
  | Json.null => some none
  | _ => (decodeStart j).map some

/-- `ThoughtData.model_validate_json`, as used by `render_recent_thoughts` on
the text of a persisted session file (pydantic semantics modelled from the
spec: strict decode, any missing or ill-typed field fails). -/
def ThoughtData.model_validate_json (j : Json) : Option ThoughtData :=
  ((j.field "session_id").bind Json.getStr).bind fun sid =>
  ((j.field "thought_model").bind Json.getStr).bind fun tm =>
  ((j.field "trigger_new_thought").bind Json.getBool).bind fun trig =>
  ((j.field "new_thought").bind decodeOptStart).bind fun nt =>
  ((j.field "this_thought_responses").bind Json.getArr).bind fun rl =>
  (mapOption decodeReflect rl).bind fun resp =>
  ((j.field "current_thought_index").bind Json.getNum).bind fun idx =>
  ((j.field "thought_complete").bind Json.getBool).bind fun tc =>
  ((j.field "thought_had_error").bind Json.getBool).bind fun te =>
  ((j.field "thought_status_msgs").bind Json.getArr).bind fun ml =>
  (mapOption Json.getStr ml).bind fun msgs =>
  some ⟨sid, tm, trig, nt, resp, idx, tc, te, msgs⟩

theorem decodeStart_toJson (k : StartNewThoughtResponse) :
    decodeStart k.toJson = some k := rfl

theorem decodeReflect_toJson (r : ReflectThoughtResponse) :
    decodeReflect r.toJson = some r := rfl

theorem mapOption_decodeReflect (l : List ReflectThoughtResponse) :
    mapOption decodeReflect (l.map ReflectThoughtResponse.toJson) = some l := by
  induction l with
  | nil => rfl
  | cons x xs ih => simp [mapOption, decodeReflect_toJson, ih]

theorem mapOption_getStr (l : List String) :
    mapOption Json.getStr (l.map Json.str) = some l := by
  induction l with
  | nil => rfl
  | cons x xs ih => simp [mapOption, Json.getStr, ih]

theorem decodeOptStart_toJson (k : StartNewThoughtResponse) :
    decodeOptStart k.toJson = some (some k) := rfl

theorem validate_dump_data (d : ThoughtData) :
    ThoughtData.model_validate_json d.model_dump_json = some d := by
  cases d with
  | mk sid tm trig nt resp idx tc te msgs =>
    cases nt with
    | none =>
      simp [ThoughtData.model_dump_json, ThoughtData.model_validate_json, Json.field,
        lookupField, Json.getStr, Json.getBool, Json.getNum, Json.getArr, decodeOptStart,
        mapOption_decodeReflect, mapOption_getStr]
    | some k =>
      simp [ThoughtData.model_dump_json, ThoughtData.model_validate_json, Json.field,
        lookupField, Json.getStr, Json.getBool, Json.getNum, Json.getArr,
        decodeOptStart_toJson, mapOption_decodeReflect, mapOption_getStr]

/-- Modelled from the spec: the `Thought` record of `local_utils.v2.thoughts`
(not under src/), reduced to the fields the listing layer's contracts use: the
stable id, a recency stamp used for ordering, and the completion flag. -/
structure Thought where
  thought_id : String
  ts : Int
  completed : Bool
deriving DecidableEq, Repr

/-- Modelled from the spec: pydantic `model_dump` of a `Thought`, as cached by
the listing layer before re-validation. -/
def Thought.model_dump (t : Thought) : Json :=
  Json.obj [("thought_id", Json.str t.thought_id), ("ts", Json.num t.ts),
    ("completed", Json.bool t.completed)]

def requireField (j : Json) (key : String) : Except String Json :=
  match j.field key with
  | some v => Except.ok v
  | none => Except.error ("missing field " ++ key)

def requireStr (j : Json) : Except String String :=
  match j.getStr with
  | some s => Except.ok s
  | none => Except.error "expected string"

def requireNum (j : Json) : Except String Int :=
  match j.getNum with
  | some n => Except.ok n
  | none => Except.error "expected number"

def requireBool (j : Json) : Except String Bool :=
  match j.getBool with
  | some b => Except.ok b
  | none => Except.error "expected bool"

/-- Modelled from the spec: pydantic validation of one stored `Thought` record:
a missing or ill-typed field fails loudly with a validation error, never
silently coerced or defaulted. -/
def validateThought (j : Json) : Except String Thought :=
  (requireField j "thought_id").bind fun v =>
  (requireStr v).bind fun tid =>
  (requireField j "ts").bind fun w =>
  (requireNum w).bind fun ts =>
  (requireField j "completed").bind fun u =>
  (requireBool u).bind fun c =>
  Except.ok ⟨tid, ts, c⟩

/-- `TypeAdapter(list[Thought]).validate_python` of `ui_lib.py` applied to the
raw stored records: the first malformed record fails the whole validation. -/
def validateThoughtList : List Json → Except String (List Thought)
  | [] => Except.ok []
  | j :: rest =>
    (validateThought j).bind fun t =>
    (validateThoughtList rest).bind fun ts =>
    Except.ok (t :: ts)

theorem validateThought_dump (t : Thought) :
    validateThought t.model_dump = Except.ok t := rfl

/-- Ordering by recency: `a` is at least as recent as `b`. -/
def moreRecent (a b : Thought) : Prop := b.ts ≤ a.ts

instance : DecidableRel moreRecent :=
  fun a b => inferInstanceAs (Decidable (b.ts ≤ a.ts))

instance : IsTotal Thought moreRecent := ⟨fun a b => le_total b.ts a.ts⟩

instance : IsTrans Thought moreRecent := ⟨fun _ _ _ h1 h2 => le_trans h2 h1⟩

/-- Modelled from the spec: `ThoughtMemory.list_recently_completed_thoughts`
(from `local_utils.v2.thoughts`, not under src/): the `num` most recently
completed records — the completed records, ordered by descending recency,
truncated to `num`. -/
def ThoughtMemory.list_recently_completed_thoughts (store : List Thought)
    (num : Nat) : List Thought :=
  (List.insertionSort moreRecent (store.filter fun t => t.completed)).take num

/-- Modelled from the spec: `ThoughtMemory.list_incomplete_thoughts` (from
`local_utils.v2.thoughts`, not under src/): every record whose completed flag
is false. -/
def ThoughtMemory.list_incomplete_thoughts (store : List Thought) : List Thought :=
  store.filter fun t => !t.completed

/-- The listing query `list_recent_thoughts` of `ui_lib.py`, composed with the
store read it is built on: every stored record passes through the data model's
validation (`TypeAdapter(list[Thought]).validate_python`), after which the
memory query selects the recently completed records. -/
def list_recent_thoughts (raw : List Json) (num : Nat) : Except String (List Thought) :=
  (validateThoughtList raw).bind fun ts =>
  Except.ok (ThoughtMemory.list_recently_completed_thoughts ts num)

/-- The listing query `list_incomplete_thoughts` of `ui_lib.py`, composed with
the store read it is built on, validating every stored record. -/
def list_incomplete_thoughts (raw : List Json) : Except String (List Thought) :=
  (validateThoughtList raw).bind fun ts =>
  Except.ok (ThoughtMemory.list_incomplete_thoughts ts)

theorem validateThoughtList_isOk (raw : List Json) :
    (validateThoughtList raw).isOk = raw.all fun j => (validateThought j).isOk := by
  induction raw with
  | nil => rfl
  | cons j rest ih =>
    rw [List.all_cons]
    show ((validateThought j).bind fun t =>
        (validateThoughtList rest).bind fun ts => Except.ok (t :: ts)).isOk =
      ((validateThought j).isOk && rest.all fun j2 => (validateThought j2).isOk)
    rw [← ih]
    cases hj : validateThought j with
    | error e => rfl
    | ok t =>
      cases hr : validateThoughtList rest with
      | error e2 => rfl
      | ok ts => rfl

/-- C7: serializing a record and deserializing the result is the identity — on
the persisted-file round-trip of the session record (`model_dump_json` then
`model_validate_json`, as `render_recent_thoughts` reads it) and on the
dump/validate pair of the listing layer — so the step ordering and every
scalar field survive unchanged. -/
theorem record_serialization_roundtrip (d : ThoughtData) (t : Thought) :
    ThoughtData.model_validate_json d.model_dump_json = some d ∧
    validateThought t.model_dump = Except.ok t :=
  ⟨validate_dump_data d, validateThought_dump t⟩

/-- C8: the memory listing returns only completed records; it returns
`min num (number of completed records)` of them; and together with the leftover
completed records it is a permutation of all completed records, every returned
record being at least as recent as every leftover one — i.e. the `num` most
recently completed records. -/
theorem recently_completed_spec (store : List Thought) (num : Nat) :
    (∀ t ∈ ThoughtMemory.list_recently_completed_thoughts store num,
      t.completed = true) ∧
    (ThoughtMemory.list_recently_completed_thoughts store num).length =
      min num (store.filter fun t => t.completed).length ∧
    ∃ rest,
      (ThoughtMemory.list_recently_completed_thoughts store num ++ rest).Perm
        (store.filter fun t => t.completed) ∧
      ∀ t ∈ ThoughtMemory.list_recently_completed_thoughts store num,
        ∀ u ∈ rest, u.ts ≤ t.ts := by
  unfold ThoughtMemory.list_recently_completed_thoughts
  have hperm : (List.insertionSort moreRecent (store.filter fun t => t.completed)).Perm
      (store.filter fun t => t.completed) :=
    List.perm_insertionSort moreRecent (store.filter fun t => t.completed)
  have hsort : List.Sorted moreRecent
      (List.insertionSort moreRecent (store.filter fun t => t.completed)) :=
    List.sorted_insertionSort moreRecent (store.filter fun t => t.completed)
  refine ⟨?_, ?_,
    (List.insertionSort moreRecent (store.filter fun t => t.completed)).drop num,
    ?_, ?_⟩
  · intro t ht
    have h1 := List.mem_of_mem_take ht
    have h2 := hperm.mem_iff.mp h1
    exact (List.mem_filter.mp h2).2
  · rw [List.length_take, hperm.length_eq]
  · rw [List.take_append_drop]
    exact hperm
  · intro t ht u hu
    rw [← List.take_append_drop num
      (List.insertionSort moreRecent (store.filter fun t => t.completed))] at hsort
    exact (List.pairwise_append.mp hsort).2.2 t ht u hu

/-- C9: the listing queries validate every stored record against the data
model: when every stored record validates they return exactly the validated
records the memory queries select, and when any stored record is malformed
they fail with a validation error instead of returning a coerced record. -/
theorem listing_validation_spec (raw : List Json) (num : Nat) :
    (∀ ts, validateThoughtList raw = Except.ok ts →
      list_recent_thoughts raw num =
        Except.ok (ThoughtMemory.list_recently_completed_thoughts ts num) ∧
      list_incomplete_thoughts raw =
        Except.ok (ThoughtMemory.list_incomplete_thoughts ts)) ∧
    ((∃ j ∈ raw, (validateThought j).isOk = false) →
      (list_recent_thoughts raw num).isOk = false ∧
      (list_incomplete_thoughts raw).isOk = false) := by
  constructor
  · intro ts hts
    constructor
    · simp [list_recent_thoughts, hts, Except.bind]
    · simp [list_incomplete_thoughts, hts, Except.bind]
  · intro hbad
    have hall : (raw.all fun j => (validateThought j).isOk) = false := by
      obtain ⟨j, hj, hfail⟩ := hbad
      cases hb : (raw.all fun j => (validateThought j).isOk) with
      | false => rfl
      | true =>
        have h2 := List.all_eq_true.mp hb j hj
        rw [hfail] at h2
        exact (Bool.false_ne_true h2).elim
    have hok : (validateThoughtList raw).isOk = false := by
      rw [validateThoughtList_isOk, hall]
    cases hv : validateThoughtList raw with
    | ok ts =>
      rw [hv] at hok
      simp [Except.isOk, Except.toBool] at hok
    | error e =>
      constructor
      · simp [list_recent_thoughts, hv, Except.bind, Except.isOk, Except.toBool]
      · simp [list_incomplete_thoughts, hv, Except.bind, Except.isOk, Except.toBool]

/-! ### The time-bounded listing cache -/

/-- Modelled from the spec: the freshness window of the
`st.cache_data(ttl=timedelta(seconds=5))` decorator of `ui_lib.py`, in
seconds. -/
def cache_ttl : Nat := 5

/-- Modelled from the spec: the state of one `st.cache_data` memoised function —
for each key (the tuple of call arguments) the cached value and the time it
was computed. -/
structure DataCache (κ α : Type) where
  entries : List (κ × α × Nat)

/-- Modelled from the spec: one call through the `st.cache_data(ttl=5s)`
decorator at time `now`: a hit within the freshness window returns the cached
value without running the wrapped function; otherwise the wrapped function
runs and the entry's window is reset to `now`.  Returns the value, whether the
wrapped function ran, and the new cache state. -/
def DataCache.call [DecidableEq κ] (c : DataCache κ α) (key : κ) (now : Nat)
    (compute : Unit → α) : α × Bool × DataCache κ α :=
  match c.entries.find? fun e => decide (e.1 = key) with
  | some e =>
    if now < e.2.2 + cache_ttl then (e.2.1, false, c)
    else
      let v := compute ()
      (v, true, ⟨(key, v, now) :: c.entries.filter fun e2 => decide (¬ e2.1 = key)⟩)
  | none =>
    let v := compute ()
    (v, true, ⟨(key, v, now) :: c.entries⟩)

/-- `_list_recent_thoughts` of `ui_lib.py` under its `st.cache_data(ttl=5s)`
decorator: the wrapped body queries the memory store; the cache key is the
call argument `num`. -/
def cached_list_recent_thoughts (c : DataCache Nat (List Thought))
    (store : List Thought) (num : Nat) (now : Nat) :
    List Thought × Bool × DataCache Nat (List Thought) :=
  c.call num now fun _ => ThoughtMemory.list_recently_completed_thoughts store num

/-- `_list_incomplete_thoughts` of `ui_lib.py` under its `st.cache_data(ttl=5s)`
decorator: no call arguments, so the key is the empty tuple. -/
def cached_list_incomplete_thoughts (c : DataCache Unit (List Thought))
    (store : List Thought) (now : Nat) :
    List Thought × Bool × DataCache Unit (List Thought) :=
  c.call () now fun _ => ThoughtMemory.list_incomplete_thoughts store

/-- C3: the cached listings honor the freshness window — a second call with the
same arguments within the window returns the previously computed value without
running the store query, even though the store has changed; a call after the
window has expired runs the query against the current store and resets the
entry's window to the time of that call; and the cache key includes the call
arguments, so a call with a different `num` runs the query.  The same holds for
the argumentless incomplete listing. -/
theorem cache_freshness_window (store0 store1 : List Thought)
    (num num2 t0 t1 t2 : Nat) (h1 : t1 < t0 + cache_ttl)
    (h2 : t0 + cache_ttl ≤ t2) (hn : num2 ≠ num) :
    (cached_list_recent_thoughts ⟨[]⟩ store0 num t0).1 =
      ThoughtMemory.list_recently_completed_thoughts store0 num ∧
    (cached_list_recent_thoughts
        (cached_list_recent_thoughts ⟨[]⟩ store0 num t0).2.2 store1 num t1).1 =
      (cached_list_recent_thoughts ⟨[]⟩ store0 num t0).1 ∧
    (cached_list_recent_thoughts
        (cached_list_recent_thoughts ⟨[]⟩ store0 num t0).2.2 store1 num t1).2.1 = false ∧
    (cached_list_recent_thoughts
        (cached_list_recent_thoughts ⟨[]⟩ store0 num t0).2.2 store1 num t2).1 =
      ThoughtMemory.list_recently_completed_thoughts store1 num ∧
    (cached_list_recent_thoughts
        (cached_list_recent_thoughts ⟨[]⟩ store0 num t0).2.2 store1 num t2).2.1 = true ∧
    (cached_list_recent_thoughts
        (cached_list_recent_thoughts ⟨[]⟩ store0 num t0).2.2 store1 num t2).2.2.entries =
      [(num, ThoughtMemory.list_recently_completed_thoughts store1 num, t2)] ∧
    (cached_list_recent_thoughts
        (cached_list_recent_thoughts ⟨[]⟩ store0 num t0).2.2 store1 num2 t1).2.1 = true ∧
    (cached_list_incomplete_thoughts
        (cached_list_incomplete_thoughts ⟨[]⟩ store0 t0).2.2 store1 t1).1 =
      ThoughtMemory.list_incomplete_thoughts store0 ∧
    (cached_list_incomplete_thoughts
        (cached_list_incomplete_thoughts ⟨[]⟩ store0 t0).2.2 store1 t1).2.1 = false := by
  have h2n : ¬ (t2 < t0 + cache_ttl) := not_lt.mpr h2
  have hnn : ¬ (num = num2) := fun h => hn h.symm
  refine ⟨rfl, ?_, ?_, ?_, ?_, ?_, ?_, ?_, ?_⟩
  · simp [cached_list_recent_thoughts, DataCache.call, List.find?, h1]
  · simp [cached_list_recent_thoughts, DataCache.call, List.find?, h1]
  · simp [cached_list_recent_thoughts, DataCache.call, List.find?, h2n]
  · simp [cached_list_recent_thoughts, DataCache.call, List.find?, h2n]
  · simp [cached_list_recent_thoughts, DataCache.call, List.find?, List.filter, h2n]
  · simp [cached_list_recent_thoughts, DataCache.call, List.find?, hnn]
  · simp [cached_list_incomplete_thoughts, DataCache.call, List.find?, h1]
  · simp [cached_list_incomplete_thoughts, DataCache.call, List.find?, h1]

/-- Witness for C3: store `[⟨"a", 1, true⟩]`, first call at second 0, a hit at
second 4 against an emptied store, expiry at second 5. -/
theorem cache_freshness_window_witness :
    (cached_list_recent_thoughts
        (cached_list_recent_thoughts ⟨[]⟩ [⟨"a", 1, true⟩] 1 0).2.2 [] 1 4).1 =
      (cached_list_recent_thoughts ⟨[]⟩ [⟨"a", 1, true⟩] 1 0).1 :=
  (cache_freshness_window [⟨"a", 1, true⟩] [] 1 2 0 4 5 (by decide) (by decide)
    (by decide)).2.1
